import Mathlib

/-!
Verification of `adversarial_generator.py`.

Shallow embedding conventions:
* An image tensor is a flattened list of rational pixel values; a batch is a
  list of images (the leading numpy batch dimension).
* A Keras model is embedded as a function from one input row to one
  probability row; `model.predict` maps it over the rows of a batch.
* The labeled example set (the dict built by `load_data`) is an association
  list from class index to the stored list of images; its `length` is the
  Python `len(examples)` (number of dict keys, which `load_data` makes
  distinct).
* `random.randint(lo, hi)` receives an extra oracle argument `r : ℕ`; as `r`
  ranges over ℕ the result ranges over the inclusive interval `[lo, hi]`,
  which is exactly the support of the Python call.  An empty range raises
  `ValueError`, embedded as `Except.error`.
* Fallible Python operations (indexing, dict lookup, numpy truth-value of a
  non-singleton array, `np.argmin` of an empty array) return
  `Except String`.
* The real-valued logarithm used by `K.categorical_crossentropy` has no
  computable embedding, so it is passed as an explicit parameter `log`;
  every theorem quantifies over it.
-/

abbrev Image : Type := List ℚ

abbrev Batch : Type := List Image

/-- A trained classifier: one input row to one row of class probabilities.
`model.predict` on a batch is `List.map` of this function. -/
abbrev Model : Type := Image → List ℚ

/-- The dict from class index to the list of stored images for that class. -/
abbrev ExampleSet : Type := List (ℕ × List Image)

instance {ε α : Type} [DecidableEq ε] [DecidableEq α] : DecidableEq (Except ε α) := fun a b =>
  match a, b with
  | .error e, .error f =>
      if h : e = f then .isTrue (by rw [h]) else .isFalse (by simp [h])
  | .error _, .ok _ => .isFalse (by simp)
  | .ok _, .error _ => .isFalse (by simp)
  | .ok x, .ok y =>
      if h : x = y then .isTrue (by rw [h]) else .isFalse (by simp [h])

/-- numpy broadcast addition of a scalar to every pixel of one image. -/
def img_add (img : Image) (c : ℚ) : Image := img.map (fun p => p + c)

/-- Embeds `np.add(x, c)` for a batch `x` and scalar `c`: elementwise addition. -/
def np_add (x : Batch) (c : ℚ) : Batch := x.map (fun img => img_add img c)

/-- Embeds `np.clip(p, 0, 1)` on one scalar: `min(1, max(0, p))`. -/
def clip01 (p : ℚ) : ℚ := min 1 (max 0 p)

/-- Embeds `np.clip(x, 0, 1)` on a batch: elementwise clipping. -/
def np_clip01 (x : Batch) : Batch := x.map (fun img => img.map clip01)

/-- Python list indexing `l[i]` for `i ≥ 0`: `IndexError` when out of range. -/
def py_get {α : Type} (l : List α) (i : ℕ) : Except String α :=
  match l.get? i with
  | some v => Except.ok v
  | none => Except.error "IndexError: list index out of range"

/-- Embeds `random.randint(lo, hi)` with the random draw `r` made explicit: returns
`lo + r % (hi - lo + 1)`, so the image of `r ↦ randint lo hi r` is exactly the
inclusive interval `[lo, hi]`; raises `ValueError` when `hi < lo`. -/
def randint (lo hi : ℤ) (r : ℕ) : Except String ℤ :=
  if hi < lo then Except.error "ValueError: empty range for randrange"
  else Except.ok (lo + (r : ℤ) % (hi - lo + 1))

/-- Python dict lookup `examples[str(class_)]`: `KeyError` when absent. -/
def dict_get (d : ExampleSet) (k : ℕ) : Except String (List Image) :=
  match d.lookup k with
  | some v => Except.ok v
  | none => Except.error "KeyError"

/-- Loop of `np.argmin`: scan the remaining entries keeping the best value,
its absolute index, and the absolute index of the next entry; a later entry
replaces the best one only when strictly smaller (first minimum wins). -/
def np_argmin_go : List ℚ → ℚ → ℕ → ℕ → ℕ
  | [], _, best_i, _ => best_i
  | v :: vs, best_v, best_i, i =>
      if v < best_v then np_argmin_go vs v i (i + 1)
      else np_argmin_go vs best_v best_i (i + 1)

/-- Embeds `np.argmin` on a vector: index of the first minimum entry; `ValueError`
on an empty array. -/
def np_argmin (l : List ℚ) : Except String ℕ :=
  match l with
  | [] => Except.error "ValueError: attempt to get argmin of an empty sequence"
  | v :: vs => Except.ok (np_argmin_go vs v 0 1)

/-- The backend constant `K.epsilon()` of Keras. -/
def keras_eps : ℚ := 1 / 10000000

/-- Embeds `K.categorical_crossentropy(K.variable(y_true), K.variable(y_pred))` for
one prediction row, with a scalar target broadcast over the row (the source
passes the integer class label as `y_true`).  Following the Keras 2 backend:
normalise the row to sum 1, clip each entry to `[eps, 1 - eps]`, and return
`-sum(target * log(row))`.  `log` is the abstracted real logarithm. -/
def categorical_crossentropy (log : ℚ → ℚ) (target : ℚ) (output : List ℚ) : ℚ :=
  let s := output.foldl (fun a p => a + p) 0
  let normed := output.map (fun p => p / s)
  let clipped := normed.map (fun p => min (1 - keras_eps) (max keras_eps p))
  Neg.neg (clipped.foldl (fun a p => a + target * log p) 0)

/-- The default finite-difference probe step `delta=1e-5`. -/
def delta_default : ℚ := 1 / 100000

/-- Embeds `compute_gradient_sign(model, x, y_true, delta)` (lines 57-76): predict on
the batch and on the batch shifted by `delta`, take the per-row categorical
cross-entropy losses against `y_true`, and compare.  The Python `if` takes
the truth value of a numpy array comparison, which is defined only for a
single-row batch; other shapes raise, embedded as `Except.error`. -/
def compute_gradient_sign (log : ℚ → ℚ) (model : Model) (x : Batch) (y_true : ℚ)
    (delta : ℚ) : Except String Int :=
  let x_delta := np_add x delta
  let y_pred := x.map model
  let y_pred_delta := x_delta.map model
  let loss := y_pred.map (categorical_crossentropy log y_true)
  let loss_delta := y_pred_delta.map (categorical_crossentropy log y_true)
  match loss, loss_delta with
  | [l], [ld] => if ld > l then Except.ok 1 else Except.ok (-1)
  | _, _ => Except.error "ValueError: truth value of an array is ambiguous"

/-- Line 49 of `get_pure_examples`:
`low_limit = random.randint(0, len(examples)-num_examples-1)`.
Note `len(examples)` is the length of the dict (number of classes). -/
def sampler_offset (examples : ExampleSet) (num_examples : ℕ) (r : ℕ) : Except String ℤ :=
  randint 0 ((examples.length : ℤ) - num_examples - 1) r

/-- Embeds `get_pure_examples(examples, num_examples, class_)` (lines 44-55): draw the
random offset, slice the class list (Python slicing clamps at the end of the
list), and wrap each sliced image as a single-example batch `np.array([im])`. -/
def get_pure_examples (examples : ExampleSet) (num_examples class_ : ℕ) (r : ℕ) :
    Except String (List Batch) := do
  let low_limit ← sampler_offset examples num_examples r
  let cls ← dict_get examples class_
  let pure_examples := (cls.drop low_limit.toNat).take num_examples
  return pure_examples.map (fun img => [img])

/-- Embeds `least_likely_class(model, examples, class_)` (lines 78-87): sample one
example of `class_`, predict, and take `np.argmin(preds[0])`. -/
def least_likely_class (model : Model) (examples : ExampleSet) (class_ : ℕ) (r : ℕ) :
    Except String ℕ := do
  let ex ← get_pure_examples examples 1 class_ r
  let ex0 ← py_get ex 0
  let row ← py_get (ex0.map model) 0
  np_argmin row

/-- Embeds `fast_gradient_sign(model, example, class_, epsilon)` (lines 90-101). -/
def fast_gradient_sign (log : ℚ → ℚ) (model : Model) (example_ : Batch) (class_ : ℕ)
    (epsilon : ℚ) : Except String Batch := do
  let gradient_sign ← compute_gradient_sign log model example_ (class_ : ℚ) delta_default
  let epsilon2 := epsilon * (gradient_sign : ℚ)
  let adv_example := np_add example_ epsilon2
  return np_clip01 adv_example

/-- The `for` loop of `basic_iterative` (lines 109-115), carrying the mutable
locals `alpha` and `adv_example`.  Note the source updates `alpha` in place:
`alpha *= gradient_sign`. -/
def basic_iterative_loop (log : ℚ → ℚ) (model : Model) (class_ : ℕ) :
    ℕ → ℚ → Batch → Except String (ℚ × Batch)
  | 0, alpha, adv_example => Except.ok (alpha, adv_example)
  | n + 1, alpha, adv_example => do
      let gradient_sign ← compute_gradient_sign log model adv_example (class_ : ℚ) delta_default
      let alpha2 := alpha * (gradient_sign : ℚ)
      let adv2 := np_clip01 (np_add adv_example alpha2)
      basic_iterative_loop log model class_ n alpha2 adv2

/-- Embeds `basic_iterative(model, example, class_, alpha, epsilon, num_iterations)`
(lines 103-117).  `epsilon` is accepted but never read in the body. -/
def basic_iterative (log : ℚ → ℚ) (model : Model) (example_ : Batch) (class_ : ℕ)
    (alpha epsilon : ℚ) (num_iterations : ℕ) : Except String Batch :=
  Except.map Prod.snd (basic_iterative_loop log model class_ num_iterations alpha example_)

/-- Instrumented run of the `basic_iterative` loop: additionally records, for
every iteration, the freshly estimated gradient sign and the quantity
`alpha` (after the in-place `alpha *= gradient_sign`) that the iteration adds
to the current example before clipping. -/
def basic_iterative_trace (log : ℚ → ℚ) (model : Model) (class_ : ℕ) :
    ℕ → ℚ → Batch → Except String (List (Int × ℚ) × (ℚ × Batch))
  | 0, alpha, adv_example => Except.ok ([], (alpha, adv_example))
  | n + 1, alpha, adv_example => do
      let gradient_sign ← compute_gradient_sign log model adv_example (class_ : ℚ) delta_default
      let alpha2 := alpha * (gradient_sign : ℚ)
      let adv2 := np_clip01 (np_add adv_example alpha2)
      let rest ← basic_iterative_trace log model class_ n alpha2 adv2
      return ((gradient_sign, alpha2) :: rest.1, rest.2)

/-- The `for` loop of `iterative_least_likely_class` (lines 132-138); in the
source it is a verbatim copy of the loop of `basic_iterative`. -/
def ill_loop (log : ℚ → ℚ) (model : Model) (ll_class : ℕ) :
    ℕ → ℚ → Batch → Except String (ℚ × Batch)
  | 0, alpha, adv_example => Except.ok (alpha, adv_example)
  | n + 1, alpha, adv_example => do
      let gradient_sign ← compute_gradient_sign log model adv_example (ll_class : ℚ) delta_default
      let alpha2 := alpha * (gradient_sign : ℚ)
      let adv2 := np_clip01 (np_add adv_example alpha2)
      ill_loop log model ll_class n alpha2 adv2

/-- Embeds `iterative_least_likely_class(model, examples, target_class, alpha,
epsilon, num_iterations)` (lines 119-140).  `r1` is the random draw of the
sampler inside `least_likely_class`, `r2` the draw of the direct sampler
call; `epsilon` is accepted but never read. -/
def iterative_least_likely_class (log : ℚ → ℚ) (model : Model) (examples : ExampleSet)
    (target_class : ℕ) (alpha epsilon : ℚ) (num_iterations : ℕ) (r1 r2 : ℕ) :
    Except String Batch := do
  let ll_class ← least_likely_class model examples target_class r1
  let ll_class_example ← get_pure_examples examples 1 ll_class r2
  let adv_example ← py_get ll_class_example 0
  let res ← ill_loop log model ll_class num_iterations alpha adv_example
  return res.2

/-- State-passing form of `get_pure_examples`, threading the example set as
the mutable store.  Line 50 slices the class list: a Python slice copies the
list spine, so the assignments of lines 52-53 (`pure_examples[i] =
np.array([pure_examples[i]])`) write into the fresh copy, and `np.array`
copies the pixel data; no statement stores into the dict or into a stored
tensor, so the returned store is the input store. -/
def get_pure_examples_st (examples : ExampleSet) (num_examples class_ r : ℕ) :
    Except String (List Batch) × ExampleSet :=
  match sampler_offset examples num_examples r with
  | .error e => (Except.error e, examples)
  | .ok low_limit =>
      match dict_get examples class_ with
      | .error e => (Except.error e, examples)
      | .ok cls =>
          let pure_examples := (cls.drop low_limit.toNat).take num_examples
          (Except.ok (pure_examples.map (fun img => [img])), examples)

/-- State-passing form of `least_likely_class`: the only statement that can
touch the store is the sampler call; prediction and `np.argmin` only read
fresh arrays. -/
def least_likely_class_st (model : Model) (examples : ExampleSet) (class_ r : ℕ) :
    Except String ℕ × ExampleSet :=
  match get_pure_examples_st examples 1 class_ r with
  | (.error e, ex1) => (Except.error e, ex1)
  | (.ok ex, ex1) =>
      match py_get ex 0 with
      | .error e => (Except.error e, ex1)
      | .ok ex0 =>
          match py_get (ex0.map model) 0 with
          | .error e => (Except.error e, ex1)
          | .ok row => (np_argmin row, ex1)

/-- State-passing form of `fast_gradient_sign`.  The source function never
receives the example set, and `np.add` / `np.clip` allocate fresh arrays
instead of writing in place, so the store is threaded through unchanged. -/
def fast_gradient_sign_st (log : ℚ → ℚ) (model : Model) (examples : ExampleSet)
    (example_ : Batch) (class_ : ℕ) (epsilon : ℚ) : Except String Batch × ExampleSet :=
  (fast_gradient_sign log model example_ class_ epsilon, examples)

/-- State-passing form of `basic_iterative`; as for `fast_gradient_sign`, the
loop body allocates fresh arrays and never sees the example set. -/
def basic_iterative_st (log : ℚ → ℚ) (model : Model) (examples : ExampleSet)
    (example_ : Batch) (class_ : ℕ) (alpha epsilon : ℚ) (num_iterations : ℕ) :
    Except String Batch × ExampleSet :=
  (basic_iterative log model example_ class_ alpha epsilon num_iterations, examples)

/-- State-passing form of `iterative_least_likely_class`: the store is only
touched by the two sampler calls. -/
def iterative_least_likely_class_st (log : ℚ → ℚ) (model : Model) (examples : ExampleSet)
    (target_class : ℕ) (alpha epsilon : ℚ) (num_iterations : ℕ) (r1 r2 : ℕ) :
    Except String Batch × ExampleSet :=
  match least_likely_class_st model examples target_class r1 with
  | (.error e, ex1) => (Except.error e, ex1)
  | (.ok ll_class, ex1) =>
      match get_pure_examples_st ex1 1 ll_class r2 with
      | (.error e, ex2) => (Except.error e, ex2)
      | (.ok ll_class_example, ex2) =>
          match py_get ll_class_example 0 with
          | .error e => (Except.error e, ex2)
          | .ok adv_example =>
              match ill_loop log model ll_class num_iterations alpha adv_example with
              | .error e => (Except.error e, ex2)
              | .ok res => (Except.ok res.2, ex2)

/-- All pixel values of a batch lie in `[0, 1]`. -/
def allpix01 (x : Batch) : Prop := ∀ img ∈ x, ∀ p ∈ img, 0 ≤ p ∧ p ≤ 1

instance (x : Batch) : Decidable (allpix01 x) := by unfold allpix01; infer_instance

/-- All pixel values of every stored image of an example set lie in `[0, 1]`. -/
def allpixE01 (examples : ExampleSet) : Prop :=
  ∀ kv ∈ examples, ∀ img ∈ kv.2, ∀ p ∈ img, 0 ≤ p ∧ p ≤ 1

instance (examples : ExampleSet) : Decidable (allpixE01 examples) := by
  unfold allpixE01; infer_instance

/-- Concrete stub classifier for witnesses: one pixel in, the probability row
`[p, 1 - p]` out. -/
def model_pair : Model := fun img =>
  match img with
  | [p] => [p, 1 - p]
  | _ => []

/-- Concrete stand-in for the abstracted logarithm in witnesses. -/
def log_sq : ℚ → ℚ := fun q => q * q

/-- Concrete example set with ten classes; class 0 stores three images, every
other class stores one. -/
def set_ten : ExampleSet :=
  [(0, [[0], [1], [1/2]]), (1, [[0]]), (2, [[0]]), (3, [[0]]), (4, [[0]]),
   (5, [[0]]), (6, [[0]]), (7, [[0]]), (8, [[0]]), (9, [[0]])]

/-- Concrete example set with a single class storing two images. -/
def set_one : ExampleSet := [(0, [[0], [1]])]

/-- Concrete example set with two classes of two constant images each. -/
def set_half : ExampleSet := [(0, [[1/2], [1/2]]), (1, [[1/2], [1/2]])]

/-- Concrete example set whose class-0 images make `model_pair` predict
`[3/4, 1/4]`, so the least likely class is 1. -/
def set_argmin : ExampleSet := [(0, [[3/4], [3/4]]), (1, [[0], [0]])]

/-! ### Reduction lemmas for the `Except` monad -/

@[simp] theorem except_bind_ok {α β : Type} (a : α) (f : α → Except String β) :
    (Except.ok a >>= f) = f a := rfl

@[simp] theorem except_bind_err {α β : Type} (e : String) (f : α → Except String β) :
    ((Except.error e : Except String α) >>= f) = Except.error e := rfl

@[simp] theorem except_pure_eq {α : Type} (a : α) :
    (pure a : Except String α) = Except.ok a := rfl

@[simp] theorem except_map_ok {α β : Type} (f : α → β) (a : α) :
    Except.map f (Except.ok a : Except String α) = Except.ok (f a) := rfl

@[simp] theorem except_map_err {α β : Type} (f : α → β) (e : String) :
    Except.map f (Except.error e : Except String α) = Except.error e := rfl

/-! ### Clipping -/

theorem clip01_mem (p : ℚ) : 0 ≤ clip01 p ∧ clip01 p ≤ 1 := by
  unfold clip01
  exact ⟨le_min zero_le_one (le_max_left 0 p), min_le_left 1 _⟩

theorem np_clip01_allpix (x : Batch) : allpix01 (np_clip01 x) := by
  intro img himg p hp
  unfold np_clip01 at himg
  rcases List.mem_map.1 himg with ⟨img0, _, rfl⟩
  rcases List.mem_map.1 hp with ⟨p0, _, rfl⟩
  exact clip01_mem p0

/-! ### Association list lookup -/

theorem lookup_mem {E : ExampleSet} {k : ℕ} {v : List Image}
    (h : E.lookup k = some v) : (k, v) ∈ E := by
  induction E with
  | nil => cases h
  | cons kv rest ih =>
      cases kv with
      | mk a b =>
          rw [List.lookup] at h
          cases hk : k == a with
          | true =>
              rw [hk] at h
              injection h with h
              have hka : k = a := by simpa using hk
              subst hka; subst h
              exact List.mem_cons_self _ _
          | false =>
              rw [hk] at h
              exact List.mem_cons_of_mem _ (ih h)

/-! ### Sampler output membership -/

theorem get_pure_examples_mem {E : ExampleSet} {n c r : ℕ} {bs : List Batch}
    (h : get_pure_examples E n c r = Except.ok bs) :
    ∀ b ∈ bs, ∀ img ∈ b, ∃ kv ∈ E, img ∈ kv.2 := by
  unfold get_pure_examples sampler_offset randint at h
  by_cases hlt : ((E.length : ℤ) - n - 1) < 0
  · rw [if_pos hlt] at h; cases h
  · rw [if_neg hlt] at h
    rw [except_bind_ok] at h
    unfold dict_get at h
    cases hl : E.lookup c with
    | none => rw [hl] at h; cases h
    | some cls =>
        rw [hl] at h
        rw [except_bind_ok] at h  -- reduce the match arm
        injection h with h
        subst h
        intro b hb img himg
        rcases List.mem_map.1 hb with ⟨img0, himg0, rfl⟩
        rcases List.mem_singleton.1 himg with rfl
        refine ⟨(c, cls), lookup_mem hl, ?_⟩
        exact List.mem_of_mem_drop (List.mem_of_mem_take himg0)

/-! ### Loop shape and preservation -/

theorem basic_iterative_loop_shape (log : ℚ → ℚ) (model : Model) (class_ : ℕ) :
    ∀ (n : ℕ) (alpha : ℚ) (x : Batch) (a : ℚ) (y : Batch),
      basic_iterative_loop log model class_ n alpha x = Except.ok (a, y) →
      y = x ∨ ∃ z, y = np_clip01 z := by
  intro n
  induction n with
  | zero =>
      intro alpha x a y h
      rw [basic_iterative_loop] at h
      injection h with h
      left
      exact (congrArg Prod.snd h).symm
  | succ n ih =>
      intro alpha x a y h
      rw [basic_iterative_loop] at h
      cases hs : compute_gradient_sign log model x (class_ : ℚ) delta_default with
      | error e => rw [hs] at h; cases h
      | ok s =>
          rw [hs, except_bind_ok] at h
          rcases ih _ _ _ _ h with h1 | h1
          · right; exact ⟨_, h1⟩
          · right; exact h1

theorem basic_iterative_loop_allpix {log : ℚ → ℚ} {model : Model} {class_ : ℕ}
    {n : ℕ} {alpha : ℚ} {x : Batch} {a : ℚ} {y : Batch}
    (hx : allpix01 x)
    (h : basic_iterative_loop log model class_ n alpha x = Except.ok (a, y)) :
    allpix01 y := by
  rcases basic_iterative_loop_shape log model class_ n alpha x a y h with h1 | ⟨z, h1⟩
  · rw [h1]; exact hx
  · rw [h1]; exact np_clip01_allpix z

/-- The loop of `iterative_least_likely_class` is a verbatim copy of the loop
of `basic_iterative`. -/
theorem ill_loop_eq_basic (log : ℚ → ℚ) (model : Model) (class_ : ℕ) :
    ∀ (n : ℕ) (alpha : ℚ) (x : Batch),
      ill_loop log model class_ n alpha x = basic_iterative_loop log model class_ n alpha x := by
  intro n
  induction n with
  | zero => intro alpha x; rfl
  | succ n ih =>
      intro alpha x
      rw [ill_loop, basic_iterative_loop]
      cases hs : compute_gradient_sign log model x (class_ : ℚ) delta_default with
      | error e => rfl
      | ok s => rw [except_bind_ok, except_bind_ok, ih]

theorem py_get_mem {α : Type} {l : List α} {i : ℕ} {v : α}
    (h : py_get l i = Except.ok v) : v ∈ l := by
  unfold py_get at h
  cases hg : l.get? i with
  | none => rw [hg] at h; cases h
  | some w =>
      rw [hg] at h
      injection h with h
      subst h
      exact List.get?_mem hg

/-- C1: for every input example batch whose pixel values all lie in [0,1]
(and, for the set-consuming attack, an example set whose stored images all
lie in [0,1]), every image tensor returned by any of the three attack
operations has every pixel value in [0,1], for any epsilon, alpha and
iteration count. -/
theorem c1_attack_outputs_clipped (log : ℚ → ℚ) (model : Model) (examples : ExampleSet)
    (x : Batch) (class_ target_class : ℕ) (alpha epsilon : ℚ)
    (num_iterations r1 r2 : ℕ)
    (hx : allpix01 x) (hE : allpixE01 examples) :
    (∀ t, fast_gradient_sign log model x class_ epsilon = Except.ok t → allpix01 t) ∧
    (∀ t, basic_iterative log model x class_ alpha epsilon num_iterations = Except.ok t →
      allpix01 t) ∧
    (∀ t, iterative_least_likely_class log model examples target_class alpha epsilon
        num_iterations r1 r2 = Except.ok t → allpix01 t) := by
  refine ⟨?_, ?_, ?_⟩
  · intro t h
    unfold fast_gradient_sign at h
    cases hs : compute_gradient_sign log model x (class_ : ℚ) delta_default with
    | error e => rw [hs] at h; cases h
    | ok s =>
        rw [hs, except_bind_ok, except_pure_eq] at h
        injection h with h
        rw [← h]
        exact np_clip01_allpix _
  · intro t h
    unfold basic_iterative at h
    cases hll : basic_iterative_loop log model class_ num_iterations alpha x with
    | error e => rw [hll] at h; cases h
    | ok p =>
        rw [hll, except_map_ok] at h
        injection h with h
        cases p with
        | mk a y =>
            have hy : y = t := h
            rw [← hy]
            exact basic_iterative_loop_allpix hx hll
  · intro t h
    unfold iterative_least_likely_class at h
    cases h1 : least_likely_class model examples target_class r1 with
    | error e => rw [h1] at h; cases h
    | ok ll =>
        rw [h1, except_bind_ok] at h
        cases h2 : get_pure_examples examples 1 ll r2 with
        | error e => rw [h2] at h; cases h
        | ok bs =>
            rw [h2, except_bind_ok] at h
            cases h3 : py_get bs 0 with
            | error e => rw [h3] at h; cases h
            | ok b0 =>
                rw [h3, except_bind_ok] at h
                cases h4 : ill_loop log model ll num_iterations alpha b0 with
                | error e => rw [h4] at h; cases h
                | ok res =>
                    rw [h4, except_bind_ok, except_pure_eq] at h
                    injection h with h
                    have hb0 : allpix01 b0 := by
                      intro img himg p hp
                      rcases get_pure_examples_mem h2 b0 (py_get_mem h3) img himg with
                        ⟨kv, hkv, himg2⟩
                      exact hE kv hkv img himg2 p hp
                    rw [ill_loop_eq_basic] at h4
                    cases res with
                    | mk a y =>
                        have hy : y = t := h
                        rw [← hy]
                        exact basic_iterative_loop_allpix hb0 h4

theorem c1_attack_outputs_clipped_witness :
    allpix01 [[(1:ℚ)/2]] ∧ allpixE01 set_half ∧ allpix01 ([[0]] : Batch) :=
  ⟨by with_unfolding_all decide, by with_unfolding_all decide,
    (c1_attack_outputs_clipped log_sq model_pair set_half [[(1:ℚ)/2]] 0 0 2 2 1 0 0
      (by with_unfolding_all decide) (by with_unfolding_all decide)).1 [[0]]
      (by with_unfolding_all decide)⟩

/-- C7: the perturbation phase of `iterative_least_likely_class` is exactly
`basic_iterative` run with the least-likely class as the label and the
sampled least-likely-class example as the starting point. -/
theorem c7_ill_refines_basic_iterative (log : ℚ → ℚ) (model : Model)
    (examples : ExampleSet) (target_class : ℕ) (alpha epsilon : ℚ)
    (num_iterations r1 r2 : ℕ) (ll : ℕ) (b : Batch) (rest : List Batch)
    (h1 : least_likely_class model examples target_class r1 = Except.ok ll)
    (h2 : get_pure_examples examples 1 ll r2 = Except.ok (b :: rest)) :
    iterative_least_likely_class log model examples target_class alpha epsilon
      num_iterations r1 r2 =
    basic_iterative log model b ll alpha epsilon num_iterations := by
  unfold iterative_least_likely_class
  rw [h1, except_bind_ok, h2, except_bind_ok]
  have h3 : py_get (b :: rest) 0 = Except.ok b := rfl
  rw [h3, except_bind_ok, ill_loop_eq_basic]
  unfold basic_iterative
  cases hll : basic_iterative_loop log model ll num_iterations alpha b with
  | error e => rfl
  | ok p => rfl

theorem c7_ill_refines_basic_iterative_witness :
    least_likely_class model_pair set_half 0 0 = Except.ok 0 ∧
    iterative_least_likely_class log_sq model_pair set_half 0 2 (9/10) 1 0 0 =
      basic_iterative log_sq model_pair [[(1:ℚ)/2]] 0 2 (9/10) 1 :=
  ⟨by with_unfolding_all decide,
    c7_ill_refines_basic_iterative log_sq model_pair set_half 0 2 (9/10) 1 0 0 0
      [[(1:ℚ)/2]] [] (by with_unfolding_all decide) (by with_unfolding_all decide)⟩

/-- C8: the results of the basic iterative attack and the iterative
least-likely-class attack do not depend on the epsilon argument: the
parameter is accepted but never read. -/
theorem c8_epsilon_independent (log : ℚ → ℚ) (model : Model) (examples : ExampleSet)
    (x : Batch) (class_ target_class : ℕ) (alpha epsilon1 epsilon2 : ℚ)
    (num_iterations r1 r2 : ℕ) :
    basic_iterative log model x class_ alpha epsilon1 num_iterations =
      basic_iterative log model x class_ alpha epsilon2 num_iterations ∧
    iterative_least_likely_class log model examples target_class alpha epsilon1
        num_iterations r1 r2 =
      iterative_least_likely_class log model examples target_class alpha epsilon2
        num_iterations r1 r2 :=
  ⟨rfl, rfl⟩

/-! ### The addends of the basic iterative loop -/

theorem basic_iterative_trace_loop (log : ℚ → ℚ) (model : Model) (class_ : ℕ) :
    ∀ (n : ℕ) (alpha : ℚ) (x : Batch),
      basic_iterative_loop log model class_ n alpha x =
        Except.map Prod.snd (basic_iterative_trace log model class_ n alpha x) := by
  intro n
  induction n with
  | zero => intro alpha x; rfl
  | succ n ih =>
      intro alpha x
      rw [basic_iterative_loop, basic_iterative_trace]
      cases hs : compute_gradient_sign log model x (class_ : ℚ) delta_default with
      | error e => rfl
      | ok s =>
          simp only [except_bind_ok]
          rw [ih]
          cases ht : basic_iterative_trace log model class_ n
              (alpha * (s : ℚ)) (np_clip01 (np_add x (alpha * (s : ℚ)))) with
          | error e => rfl
          | ok p => rfl

theorem basic_iterative_trace_addends (log : ℚ → ℚ) (model : Model) (class_ : ℕ) :
    ∀ (n : ℕ) (alpha : ℚ) (x : Batch) (tr : List (Int × ℚ)) (fin : ℚ × Batch),
      basic_iterative_trace log model class_ n alpha x = Except.ok (tr, fin) →
      ∀ i (hi : i < tr.length),
        (tr.get ⟨i, hi⟩).2 =
          alpha * ((((tr.take (i + 1)).map Prod.fst).prod : ℤ) : ℚ) := by
  intro n
  induction n with
  | zero =>
      intro alpha x tr fin h i hi
      rw [basic_iterative_trace] at h
      injection h with h
      have htr : tr = [] := (congrArg Prod.fst h).symm
      subst htr
      cases hi
  | succ n ih =>
      intro alpha x tr fin h i hi
      rw [basic_iterative_trace] at h
      cases hs : compute_gradient_sign log model x (class_ : ℚ) delta_default with
      | error e => rw [hs] at h; cases h
      | ok s =>
          rw [hs, except_bind_ok] at h
          have h2 : (basic_iterative_trace log model class_ n
              (alpha * (s : ℚ)) (np_clip01 (np_add x (alpha * (s : ℚ)))) >>=
              fun rest => pure ((s, alpha * (s : ℚ)) :: rest.1, rest.2)) =
              Except.ok (tr, fin) := h
          clear h
          cases ht : basic_iterative_trace log model class_ n
              (alpha * (s : ℚ)) (np_clip01 (np_add x (alpha * (s : ℚ)))) with
          | error e => rw [ht] at h2; cases h2
          | ok p =>
              rw [ht, except_bind_ok, except_pure_eq] at h2
              injection h2 with h
              have htr : tr = (s, alpha * (s : ℚ)) :: p.1 := (congrArg Prod.fst h).symm
              subst htr
              cases i with
              | zero =>
                  simp [List.prod_cons]
              | succ i =>
                  have hi2 : i < p.1.length := by
                    simpa using Nat.lt_of_succ_lt_succ hi
                  have := ih (alpha * (s : ℚ)) (np_clip01 (np_add x (alpha * (s : ℚ))))
                    p.1 p.2 (by rw [ht]) i hi2
                  simp only [List.get_cons_succ, List.take_succ_cons, List.map_cons,
                    List.prod_cons] at this ⊢
                  rw [this]
                  push_cast
                  ring

/-- C2 counterexample: with the stub model `p ↦ [p, 1-p]`, log `q ↦ q²`,
label 1, caller alpha `1/2` and start `[[3/4]]`, the second iteration
freshly estimates gradient sign `+1`, yet the quantity added is `-1/2`,
not `1/2 * (+1)`: the in-place `alpha *= gradient_sign` carries the sign of
iteration 1 forward. -/
theorem c2_counterexample :
    basic_iterative_trace log_sq model_pair 1 2 (1/2) [[(3:ℚ)/4]] =
      Except.ok ([((-1 : ℤ), (-(1/2) : ℚ)), (1, -(1/2))], ((-(1/2) : ℚ), [[0]])) ∧
    ¬ ((-(1/2) : ℚ)) = (1/2 : ℚ) * (((1 : ℤ)) : ℚ) := by
  constructor
  · with_unfolding_all decide
  · with_unfolding_all decide

/-- C2 (amended): the quantity a basic-iterative iteration adds to the
current example before clipping equals the caller's alpha multiplied by the
product of all gradient signs freshly estimated in iterations 1..i (`alpha`
is updated in place by `alpha *= gradient_sign`), not by the i-th sign
alone; the instrumented trace agrees with `basic_iterative`. -/
theorem c2_addend_is_sign_product (log : ℚ → ℚ) (model : Model) (x : Batch)
    (class_ : ℕ) (alpha epsilon : ℚ) (num_iterations : ℕ)
    (tr : List (Int × ℚ)) (fin : ℚ × Batch) :
    (basic_iterative log model x class_ alpha epsilon num_iterations =
      Except.map (fun t => t.2.2)
        (basic_iterative_trace log model class_ num_iterations alpha x)) ∧
    (basic_iterative_trace log model class_ num_iterations alpha x =
        Except.ok (tr, fin) →
      ∀ i (hi : i < tr.length),
        (tr.get ⟨i, hi⟩).2 =
          alpha * ((((tr.take (i + 1)).map Prod.fst).prod : ℤ) : ℚ)) := by
  constructor
  · unfold basic_iterative
    rw [basic_iterative_trace_loop]
    cases ht : basic_iterative_trace log model class_ num_iterations alpha x with
    | error e => rfl
    | ok p => rfl
  · intro h
    exact basic_iterative_trace_addends log model class_ num_iterations alpha x tr fin h

theorem c2_addend_is_sign_product_witness :
    (([((-1 : ℤ), (-(1/2) : ℚ)), (1, -(1/2))].get ⟨1, by decide⟩).2 =
      (1/2 : ℚ) * (((([((-1 : ℤ), (-(1/2) : ℚ)), (1, -(1/2))].take 2).map
        Prod.fst).prod : ℤ) : ℚ)) :=
  (c2_addend_is_sign_product log_sq model_pair [[(3:ℚ)/4]] 1 (1/2) (9/10) 2
    [((-1 : ℤ), (-(1/2) : ℚ)), (1, -(1/2))] ((-(1/2) : ℚ), [[0]])).2
    (by with_unfolding_all decide) 1 (by decide)

/-- C5: the gradient-sign estimator returns exactly +1 when the categorical
cross-entropy loss on the delta-shifted batch is strictly greater than the
loss on the original batch and exactly -1 otherwise (ties included), and no
other value is ever returned on any batch; non-singleton prediction rows
raise (numpy ambiguous truth value) rather than return. -/
theorem c5_sign_is_loss_comparison (log : ℚ → ℚ) (model : Model) (y_true delta : ℚ) :
    (∀ img : Image,
      compute_gradient_sign log model [img] y_true delta =
        (if categorical_crossentropy log y_true (model (img_add img delta)) >
            categorical_crossentropy log y_true (model img)
          then Except.ok 1 else Except.ok (-1))) ∧
    (∀ (x : Batch) (v : Int),
      compute_gradient_sign log model x y_true delta = Except.ok v →
      v = 1 ∨ v = -1) := by
  constructor
  · intro img
    rfl
  · intro x v h
    unfold compute_gradient_sign at h
    cases x with
    | nil => cases h
    | cons a t =>
        cases t with
        | nil =>
            have h2 : (if categorical_crossentropy log y_true (model (img_add a delta)) >
                  categorical_crossentropy log y_true (model a)
                then (Except.ok 1 : Except String Int) else Except.ok (-1)) =
                Except.ok v := h
            by_cases hc : categorical_crossentropy log y_true (model (img_add a delta)) >
                categorical_crossentropy log y_true (model a)
            · rw [if_pos hc] at h2
              injection h2 with h2
              left; exact h2.symm
            · rw [if_neg hc] at h2
              injection h2 with h2
              right; exact h2.symm
        | cons b t2 => cases h

theorem c5_sign_is_loss_comparison_witness : ((-1 : Int) = 1 ∨ (-1 : Int) = -1) :=
  (c5_sign_is_loss_comparison log_sq model_pair 1 delta_default).2 [[(3:ℚ)/4]] (-1)
    (by with_unfolding_all decide)

/-! ### Specification of `np.argmin` -/

theorem np_argmin_go_spec : ∀ (xs : List ℚ) (bv : ℚ) (bi i : ℕ),
    (np_argmin_go xs bv bi i = bi ∧ ∀ x ∈ xs, bv ≤ x) ∨
    (∃ j, ∃ hj : j < xs.length, np_argmin_go xs bv bi i = i + j ∧
      xs.get ⟨j, hj⟩ ≤ bv ∧ ∀ x ∈ xs, xs.get ⟨j, hj⟩ ≤ x) := by
  intro xs
  induction xs with
  | nil =>
      intro bv bi i
      left
      exact ⟨rfl, by simp⟩
  | cons v vs ih =>
      intro bv bi i
      rw [np_argmin_go]
      by_cases hv : v < bv
      · rw [if_pos hv]
        rcases ih v i (i + 1) with ⟨heq, hall⟩ | ⟨j, hj, heq, hle, hall⟩
        · right
          refine ⟨0, by simp, ?_, ?_, ?_⟩
          · rw [heq]; omega
          · simpa using hv.le
          · intro x hx
            rcases List.mem_cons.1 hx with rfl | hx
            · simp
            · simpa using hall x hx
        · right
          refine ⟨j + 1, by simpa using hj, ?_, ?_, ?_⟩
          · rw [heq]; omega
          · simpa using hle.trans hv.le
          · intro x hx
            rcases List.mem_cons.1 hx with rfl | hx
            · simpa using hle
            · simpa using hall x hx
      · rw [if_neg hv]
        have hbv : bv ≤ v := le_of_not_lt hv
        rcases ih bv bi (i + 1) with ⟨heq, hall⟩ | ⟨j, hj, heq, hle, hall⟩
        · left
          refine ⟨heq, ?_⟩
          intro x hx
          rcases List.mem_cons.1 hx with rfl | hx
          · exact hbv
          · exact hall x hx
        · right
          refine ⟨j + 1, by simpa using hj, ?_, ?_, ?_⟩
          · rw [heq]; omega
          · simpa using hle
          · intro x hx
            rcases List.mem_cons.1 hx with rfl | hx
            · simpa using hle.trans hbv
            · simpa using hall x hx

theorem np_argmin_spec {l : List ℚ} {k : ℕ} (h : np_argmin l = Except.ok k) :
    ∃ hk : k < l.length, ∀ j, ∀ hj : j < l.length,
      l.get ⟨k, hk⟩ ≤ l.get ⟨j, hj⟩ := by
  cases l with
  | nil => cases h
  | cons v vs =>
      rw [np_argmin] at h
      injection h with h
      rcases np_argmin_go_spec vs v 0 1 with ⟨heq, hall⟩ | ⟨j, hj, heq, hle, hall⟩
      · have hk : k = 0 := by rw [← h, heq]
        subst hk
        refine ⟨by simp, ?_⟩
        intro j hj
        cases j with
        | zero => simp
        | succ j =>
            have hj2 : j < vs.length := by simpa using hj
            simpa using hall (vs.get ⟨j, hj2⟩) (vs.get_mem _ _)
      · have hk : k = j + 1 := by rw [← h, heq]; omega
        subst hk
        refine ⟨by simpa using hj, ?_⟩
        intro m hm
        cases m with
        | zero => simpa using hle
        | succ m =>
            have hm2 : m < vs.length := by simpa using hm
            simpa using hall (vs.get ⟨m, hm2⟩) (vs.get_mem _ _)

/-- C6: the least-likely-class selection returns the index of a minimum
entry of the model's predicted probability vector on the sampled example of
the given class. -/
theorem c6_least_likely_is_argmin (model : Model) (examples : ExampleSet)
    (class_ r : ℕ) (img : Image) (rest : List Batch) (k : ℕ)
    (h1 : get_pure_examples examples 1 class_ r = Except.ok ([img] :: rest))
    (h2 : least_likely_class model examples class_ r = Except.ok k) :
    ∃ hk : k < (model img).length,
      ∀ j, ∀ hj : j < (model img).length,
        (model img).get ⟨k, hk⟩ ≤ (model img).get ⟨j, hj⟩ := by
  unfold least_likely_class at h2
  rw [h1, except_bind_ok] at h2
  have h3 : np_argmin (model img) = Except.ok k := h2
  exact np_argmin_spec h3

theorem c6_least_likely_is_argmin_witness :
    ∃ hk : 1 < (model_pair [(3:ℚ)/4]).length,
      ∀ j, ∀ hj : j < (model_pair [(3:ℚ)/4]).length,
        (model_pair [(3:ℚ)/4]).get ⟨1, hk⟩ ≤ (model_pair [(3:ℚ)/4]).get ⟨j, hj⟩ :=
  c6_least_likely_is_argmin model_pair set_argmin 0 0 [(3:ℚ)/4] [] 1
    (by with_unfolding_all decide) (by with_unfolding_all decide)

/-! ### The sampler's offset -/

theorem sampler_offset_ok {examples : ExampleSet} {n : ℕ} (r : ℕ)
    (hn : n + 1 ≤ examples.length) :
    sampler_offset examples n r =
      Except.ok ((r : ℤ) % ((examples.length : ℤ) - n)) ∧
    0 ≤ (r : ℤ) % ((examples.length : ℤ) - n) ∧
    (r : ℤ) % ((examples.length : ℤ) - n) ≤ (examples.length : ℤ) - n - 1 := by
  have hpos : 0 < (examples.length : ℤ) - n := by omega
  unfold sampler_offset randint
  rw [if_neg (by omega : ¬ ((examples.length : ℤ) - n - 1 < 0))]
  refine ⟨?_, ?_, ?_⟩
  · have h1 : (examples.length : ℤ) - n - 1 - 0 + 1 = (examples.length : ℤ) - n := by ring
    rw [h1]
    congr 1
    ring
  · exact Int.emod_nonneg _ (by omega)
  · have := Int.emod_lt_of_pos (r : ℤ) hpos
    omega

theorem get_pure_examples_eq {examples : ExampleSet} {n c r : ℕ} {cls : List Image}
    (hn : n + 1 ≤ examples.length) (hc : dict_get examples c = Except.ok cls) :
    get_pure_examples examples n c r =
      Except.ok (((cls.drop ((r : ℤ) % ((examples.length : ℤ) - n)).toNat).take n).map
        (fun img => [img])) := by
  unfold get_pure_examples
  rw [(sampler_offset_ok r hn).1, except_bind_ok, hc, except_bind_ok, except_pure_eq]

theorem sampler_offset_err {examples : ExampleSet} {n : ℕ} (r : ℕ)
    (hn : examples.length < n + 1) :
    sampler_offset examples n r = Except.error "ValueError: empty range for randrange" := by
  unfold sampler_offset randint
  rw [if_pos (by omega)]

theorem sampler_offset_surj {examples : ExampleSet} {n : ℕ}
    (k : ℤ) (h0 : 0 ≤ k) (h1 : k ≤ (examples.length : ℤ) - n - 1) :
    ∃ r2 : ℕ, sampler_offset examples n r2 = Except.ok k := by
  refine ⟨k.toNat, ?_⟩
  have hn : n + 1 ≤ examples.length := by omega
  rw [(sampler_offset_ok k.toNat hn).1]
  congr 1
  rw [Int.toNat_of_nonneg h0]
  exact Int.emod_eq_of_lt h0 (by omega)

/-- C3 counterexample: in `set_ten`, class 0 stores 3 images; for a request
of n = 1 the claim puts the offset in [0, 3 - 1 - 1) = {0}, yet the draw
r = 8 yields offset 8 (the code uses the length of the dict, 10, and
`random.randint` is inclusive), and the returned slice is empty instead of
a length-1 slice of the class list. -/
theorem c3_counterexample :
    sampler_offset set_ten 1 8 = Except.ok 8 ∧
    dict_get set_ten 0 = Except.ok [[0], [1], [(1:ℚ)/2]] ∧
    ¬ ((8 : ℤ) < (([[0], [1], [(1:ℚ)/2]] : List Image).length : ℤ) - 1 - 1) ∧
    get_pure_examples set_ten 1 0 8 = Except.ok [] := by
  refine ⟨?_, ?_, ?_, ?_⟩ <;> with_unfolding_all decide

/-- C3 (amended): the sampler draws its starting offset uniformly from the
inclusive integer interval [0, len(examples) - n - 1], where `len(examples)`
is the number of classes in the example-set dict (not the number of examples
stored for the requested class); every offset in that interval is reachable
and no other offset is; the result is the contiguous slice of the class
list starting there, clamped by Python slicing to the end of the list, each
element wrapped with a leading batch dimension of size 1. -/
theorem c3_sampler_characterization (examples : ExampleSet) (n c r : ℕ)
    (cls : List Image)
    (hn : n + 1 ≤ examples.length)
    (hc : dict_get examples c = Except.ok cls) :
    (∃ off : ℤ, sampler_offset examples n r = Except.ok off ∧
      0 ≤ off ∧ off ≤ (examples.length : ℤ) - n - 1 ∧
      get_pure_examples examples n c r =
        Except.ok (((cls.drop off.toNat).take n).map (fun img => [img]))) ∧
    (∀ k : ℤ, 0 ≤ k → k ≤ (examples.length : ℤ) - n - 1 →
      ∃ r2 : ℕ, sampler_offset examples n r2 = Except.ok k) := by
  refine ⟨⟨_, (sampler_offset_ok r hn).1, (sampler_offset_ok r hn).2.1,
    (sampler_offset_ok r hn).2.2, get_pure_examples_eq hn hc⟩, ?_⟩
  intro k h0 h1
  exact sampler_offset_surj k h0 h1

theorem c3_sampler_characterization_witness :
    (1 + 1 ≤ set_ten.length) ∧
    ((∃ off : ℤ, sampler_offset set_ten 1 8 = Except.ok off ∧
      0 ≤ off ∧ off ≤ (set_ten.length : ℤ) - 1 - 1 ∧
      get_pure_examples set_ten 1 0 8 =
        Except.ok (((([[0], [1], [(1:ℚ)/2]] : List Image).drop off.toNat).take 1).map
          (fun img => [img]))) ∧
    (∀ k : ℤ, 0 ≤ k → k ≤ (set_ten.length : ℤ) - 1 - 1 →
      ∃ r2 : ℕ, sampler_offset set_ten 1 r2 = Except.ok k)) :=
  ⟨by decide,
    c3_sampler_characterization set_ten 1 0 8 [[0], [1], [(1:ℚ)/2]] (by decide)
      (by with_unfolding_all decide)⟩

/-- C4 counterexample: class 1 of `set_ten` stores one image, fewer than
n + 1 = 4, yet the sampler succeeds (Python slicing clamps, and the randint
bound uses the dict length 10); conversely in `set_one` class 0 stores two
images, at least n + 1 = 2, yet the sampler raises, because the dict has
only one key.  The raised error is a `ValueError` from `random.randint`,
not an indexing error. -/
theorem c4_counterexample :
    (get_pure_examples set_ten 3 1 0 = Except.ok [[[0]]] ∧
      ([[(0:ℚ)]] : List Image).length < 3 + 1) ∧
    (get_pure_examples set_one 1 0 0 =
        Except.error "ValueError: empty range for randrange" ∧
      1 + 1 ≤ ([[(0:ℚ)], [1]] : List Image).length) := by
  refine ⟨⟨?_, ?_⟩, ?_, ?_⟩ <;> with_unfolding_all decide

/-- C4 (amended): for a class that is present in the dict, the sampler
fails — with a `ValueError` raised by `random.randint` on an empty range,
not an indexing error — if and only if the example set has fewer than n + 1
classes (dict entries); the example count of the requested class is
irrelevant, since Python slicing clamps instead of raising. -/
theorem c4_failure_iff_too_few_classes (examples : ExampleSet) (n c r : ℕ)
    (cls : List Image) (hc : dict_get examples c = Except.ok cls) :
    (∃ e, get_pure_examples examples n c r = Except.error e) ↔
      examples.length < n + 1 := by
  constructor
  · rintro ⟨e, he⟩
    by_contra hlen
    rw [get_pure_examples_eq (le_of_not_lt hlen) hc] at he
    cases he
  · intro hlen
    refine ⟨"ValueError: empty range for randrange", ?_⟩
    unfold get_pure_examples
    rw [sampler_offset_err r hlen]
    rfl

theorem c4_failure_iff_too_few_classes_witness :
    (∃ e, get_pure_examples set_one 1 0 0 = Except.error e) :=
  (c4_failure_iff_too_few_classes set_one 1 0 0 [[0], [1]]
    (by with_unfolding_all decide)).mpr (by decide)

/-- C9 counterexample: class 0 of `set_ten` stores 3 ≥ n + 1 = 2 examples,
yet for the draw r = 8 the sampler returns the empty list, shorter than the
requested count n = 1. -/
theorem c9_counterexample :
    get_pure_examples set_ten 1 0 8 = Except.ok ([] : List Batch) ∧
    1 + 1 ≤ ([[0], [1], [(1:ℚ)/2]] : List Image).length ∧
    ¬ (([] : List Batch).length = 1) := by
  refine ⟨?_, ?_, ?_⟩ <;> with_unfolding_all decide

/-- C9 (amended): when the example set has at least n + 1 classes and the
requested class stores at least `len(examples) - 1` examples (enough to
cover every reachable offset), the sampler returns a list of length exactly
n whose elements are the stored images, unmodified, each wrapped as a
single-example batch. -/
theorem c9_length_and_data_preserved (examples : ExampleSet) (n c r : ℕ)
    (cls : List Image)
    (hn : n + 1 ≤ examples.length)
    (hc : dict_get examples c = Except.ok cls)
    (hcls : examples.length - 1 ≤ cls.length) :
    ∃ bs : List Batch, get_pure_examples examples n c r = Except.ok bs ∧
      bs.length = n ∧ ∀ b ∈ bs, ∃ img ∈ cls, b = [img] := by
  refine ⟨_, get_pure_examples_eq hn hc, ?_, ?_⟩
  · rw [List.length_map, List.length_take, List.length_drop]
    have hoff := (sampler_offset_ok r hn).2.2
    have h0 := (sampler_offset_ok r hn).2.1
    omega
  · intro b hb
    rcases List.mem_map.1 hb with ⟨img, himg, rfl⟩
    exact ⟨img, List.mem_of_mem_drop (List.mem_of_mem_take himg), rfl⟩

theorem c9_length_and_data_preserved_witness :
    ∃ bs : List Batch, get_pure_examples set_half 1 0 0 = Except.ok bs ∧
      bs.length = 1 ∧ ∀ b ∈ bs, ∃ img ∈ ([[(1:ℚ)/2], [(1:ℚ)/2]] : List Image), b = [img] :=
  c9_length_and_data_preserved set_half 1 0 0 [[(1:ℚ)/2], [(1:ℚ)/2]] (by decide)
    (by with_unfolding_all decide) (by decide)

/-! ### The example set as a store -/

theorem get_pure_examples_st_spec (examples : ExampleSet) (n c r : ℕ) :
    get_pure_examples_st examples n c r = (get_pure_examples examples n c r, examples) := by
  unfold get_pure_examples_st get_pure_examples
  cases ho : sampler_offset examples n r with
  | error e => rfl
  | ok off =>
      rw [except_bind_ok]
      cases hd : dict_get examples c with
      | error e => rfl
      | ok cls => rfl

theorem least_likely_class_st_spec (model : Model) (examples : ExampleSet) (c r : ℕ) :
    least_likely_class_st model examples c r =
      (least_likely_class model examples c r, examples) := by
  unfold least_likely_class_st least_likely_class
  rw [get_pure_examples_st_spec]
  cases hg : get_pure_examples examples 1 c r with
  | error e => rfl
  | ok ex =>
      rw [except_bind_ok]
      show (match py_get ex 0 with
        | .error e => (Except.error e, examples)
        | .ok ex0 =>
            match py_get (ex0.map model) 0 with
            | .error e => (Except.error e, examples)
            | .ok row => (np_argmin row, examples)) = _
      cases h0 : py_get ex 0 with
      | error e => rfl
      | ok ex0 =>
          show (match py_get (ex0.map model) 0 with
            | .error e => (Except.error e, examples)
            | .ok row => (np_argmin row, examples)) =
            ((py_get (ex0.map model) 0 >>= fun row => np_argmin row), examples)
          cases h1 : py_get (ex0.map model) 0 with
          | error e => rfl
          | ok row => rfl

theorem iterative_least_likely_class_st_spec (log : ℚ → ℚ) (model : Model)
    (examples : ExampleSet) (target_class : ℕ) (alpha epsilon : ℚ)
    (num_iterations r1 r2 : ℕ) :
    iterative_least_likely_class_st log model examples target_class alpha epsilon
        num_iterations r1 r2 =
      (iterative_least_likely_class log model examples target_class alpha epsilon
        num_iterations r1 r2, examples) := by
  unfold iterative_least_likely_class_st iterative_least_likely_class
  rw [least_likely_class_st_spec]
  cases h1 : least_likely_class model examples target_class r1 with
  | error e => rfl
  | ok ll =>
      rw [except_bind_ok]
      show (match get_pure_examples_st examples 1 ll r2 with
        | (.error e, ex2) => (Except.error e, ex2)
        | (.ok ll_class_example, ex2) =>
            match py_get ll_class_example 0 with
            | .error e => (Except.error e, ex2)
            | .ok adv_example =>
                match ill_loop log model ll num_iterations alpha adv_example with
                | .error e => (Except.error e, ex2)
                | .ok res => (Except.ok res.2, ex2)) = _
      rw [get_pure_examples_st_spec]
      cases h2 : get_pure_examples examples 1 ll r2 with
      | error e => rfl
      | ok bs =>
          rw [except_bind_ok]
          show (match py_get bs 0 with
            | .error e => (Except.error e, examples)
            | .ok adv_example =>
                match ill_loop log model ll num_iterations alpha adv_example with
                | .error e => (Except.error e, examples)
                | .ok res => (Except.ok res.2, examples)) = _
          cases h3 : py_get bs 0 with
          | error e => rfl
          | ok b0 =>
              show (match ill_loop log model ll num_iterations alpha b0 with
                | .error e => (Except.error e, examples)
                | .ok res => (Except.ok res.2, examples)) =
                ((ill_loop log model ll num_iterations alpha b0 >>=
                  fun res => pure res.2), examples)
              cases h4 : ill_loop log model ll num_iterations alpha b0 with
              | error e => rfl
              | ok res => rfl

/-- C10: in state-passing form, with the example set as the store, the
sampler and every attack operation return the store unchanged (and agree
with their plain, value-level embeddings): the dict and the tensors stored
in it are never modified after construction.  `fast_gradient_sign` and
`basic_iterative` never even receive the set; the sampler's in-place
wrapping writes into the copy made by the Python slice. -/
theorem c10_example_set_read_only (log : ℚ → ℚ) (model : Model) (examples : ExampleSet)
    (x : Batch) (n c target_class : ℕ) (alpha epsilon : ℚ)
    (num_iterations r r1 r2 : ℕ) :
    ((get_pure_examples_st examples n c r).2 = examples ∧
      (get_pure_examples_st examples n c r).1 = get_pure_examples examples n c r) ∧
    ((least_likely_class_st model examples c r).2 = examples ∧
      (least_likely_class_st model examples c r).1 = least_likely_class model examples c r) ∧
    ((fast_gradient_sign_st log model examples x c epsilon).2 = examples ∧
      (fast_gradient_sign_st log model examples x c epsilon).1 =
        fast_gradient_sign log model x c epsilon) ∧
    ((basic_iterative_st log model examples x c alpha epsilon num_iterations).2 = examples ∧
      (basic_iterative_st log model examples x c alpha epsilon num_iterations).1 =
        basic_iterative log model x c alpha epsilon num_iterations) ∧
    ((iterative_least_likely_class_st log model examples target_class alpha epsilon
        num_iterations r1 r2).2 = examples ∧
      (iterative_least_likely_class_st log model examples target_class alpha epsilon
        num_iterations r1 r2).1 =
        iterative_least_likely_class log model examples target_class alpha epsilon
          num_iterations r1 r2) := by
  refine ⟨⟨?_, ?_⟩, ⟨?_, ?_⟩, ⟨rfl, rfl⟩, ⟨rfl, rfl⟩, ⟨?_, ?_⟩⟩
  · rw [get_pure_examples_st_spec]
  · rw [get_pure_examples_st_spec]
  · rw [least_likely_class_st_spec]
  · rw [least_likely_class_st_spec]
  · rw [iterative_least_likely_class_st_spec]
  · rw [iterative_least_likely_class_st_spec]
